import Mathlib

/-!
Verification of the event fan-out bus of the mixer-console gateway.

The embedding follows the event-bus module (`event-bus.js`): module-level
state (`kafkaProducer`, `kafkaConsumer`, `kafkaConsumerStarted`), the
`initializeKafka` start routine, the `eventBus` facade operations
(`publishQueueUpdate`, `shutdown`, `asyncIterator`) and the consumer's
`eachMessage` handler.  Effects on the outside world (local pub/sub
deliveries, broker connects/disconnects/sends, console logging) are
recorded as an explicit action trace; fallibility of the broker steps is
an environment parameter; a JavaScript exception escaping an operation is
an explicit `threw` flag.

Payloads are JSON values.  `JSON.stringify` / `JSON.parse` are modelled on
a JSON value type whose numbers are (unbounded) integers — the payloads the
gateway produces carry only strings and integer counters, and exact
floating-point formatting is outside the model.  The parser works on the
serializer's grammar (no insignificant whitespace, which `JSON.stringify`
never emits).
-/

/-- JSON values: the payload universe of the event bus. -/
inductive Json where
  | null : Json
  | bool (b : Bool) : Json
  | num (n : Int) : Json
  | str (s : String) : Json
  | arr (elems : List Json) : Json
  | obj (fields : List (String × Json)) : Json

/-- The character for a decimal digit value. -/
def digitChar (d : Nat) : Char := Char.ofNat (48 + d)

/-- Decimal representation of a natural number, most significant digit first. -/
def natChars (m : Nat) : List Char :=
  if m = 0 then ['0'] else ((Nat.digits 10 m).map digitChar).reverse

/-- Decimal representation of an integer. -/
def intChars : Int → List Char
  | Int.ofNat m => natChars m
  | Int.negSucc m => '-' :: natChars (m + 1)

/-- Lower-case hexadecimal digit character. -/
def hexDigitChar (d : Nat) : Char :=
  if d < 10 then Char.ofNat (48 + d) else Char.ofNat (87 + d)

/-- The opening curly bracket character. -/
def leftBrace : Char := Char.ofNat 123

/-- The closing curly bracket character. -/
def rightBrace : Char := Char.ofNat 125

/-- How `JSON.stringify` renders one character inside a string literal. -/
def escapeChar (c : Char) : List Char :=
  if c = '"' then ['\\', '"']
  else if c = '\\' then ['\\', '\\']
  else if c = '\n' then ['\\', 'n']
  else if c = '\r' then ['\\', 'r']
  else if c = '\t' then ['\\', 't']
  else if c = Char.ofNat 8 then ['\\', 'b']
  else if c = Char.ofNat 12 then ['\\', 'f']
  else if c.toNat < 32 then
    ['\\', 'u', '0', '0', hexDigitChar (c.toNat / 16), hexDigitChar (c.toNat % 16)]
  else [c]

/-- Renders the characters of a string literal body followed by the closing quote. -/
def escChars : List Char → List Char
  | [] => ['"']
  | c :: cs => escapeChar c ++ escChars cs

/-- Rendering of `JSON.stringify` for a string, quotes included. -/
def escapeString (s : String) : List Char := '"' :: escChars s.data

mutual

/-- Characters of `JSON.stringify` of a JSON value. -/
def Json.toChars : Json → List Char
  | Json.null => ['n', 'u', 'l', 'l']
  | Json.bool true => ['t', 'r', 'u', 'e']
  | Json.bool false => ['f', 'a', 'l', 's', 'e']
  | Json.num n => intChars n
  | Json.str s => escapeString s
  | Json.arr [] => ['[', ']']
  | Json.arr (e :: es) => '[' :: (Json.toChars e ++ arrTail es)
  | Json.obj [] => [leftBrace, rightBrace]
  | Json.obj (f :: fs) =>
      leftBrace :: (escapeString f.1 ++ ':' :: Json.toChars f.2 ++ objTail fs)

/-- Renders the remaining array elements, commas between, closing bracket last. -/
def arrTail : List Json → List Char
  | [] => [']']
  | e :: es => ',' :: (Json.toChars e ++ arrTail es)

/-- Renders the remaining object fields, commas between, closing brace last. -/
def objTail : List (String × Json) → List Char
  | [] => [rightBrace]
  | f :: fs => ',' :: (escapeString f.1 ++ ':' :: Json.toChars f.2 ++ objTail fs)

end

/-- The model of `JSON.stringify`. -/
def Json.stringify (j : Json) : String := String.mk (Json.toChars j)

/-- Value of a hexadecimal digit character, as accepted by `JSON.parse`. -/
def hexVal (c : Char) : Option Nat :=
  if c.isDigit then some (c.toNat - 48)
  else if 'a' ≤ c ∧ c ≤ 'f' then some (c.toNat - 87)
  else if 'A' ≤ c ∧ c ≤ 'F' then some (c.toNat - 55)
  else none

/-- Prepends a character to the string of a partial string-parse result. -/
def strCons (c : Char) : Option (String × List Char) → Option (String × List Char)
  | some (s, r) => some (String.mk (c :: s.data), r)
  | none => none

/-- Parses the body of a JSON string literal (after the opening quote),
returning the decoded string and the characters after the closing quote. -/
def parseStringBody : List Char → Option (String × List Char)
  | [] => none
  | c :: cs =>
    if c = '"' then some ("", cs)
    else if c = '\\' then
      match cs with
      | [] => none
      | e :: cs' =>
        if e = '"' then strCons '"' (parseStringBody cs')
        else if e = '\\' then strCons '\\' (parseStringBody cs')
        else if e = '/' then strCons '/' (parseStringBody cs')
        else if e = 'n' then strCons '\n' (parseStringBody cs')
        else if e = 'r' then strCons '\r' (parseStringBody cs')
        else if e = 't' then strCons '\t' (parseStringBody cs')
        else if e = 'b' then strCons (Char.ofNat 8) (parseStringBody cs')
        else if e = 'f' then strCons (Char.ofNat 12) (parseStringBody cs')
        else if e = 'u' then
          match cs' with
          | h1 :: h2 :: h3 :: h4 :: cs'' =>
            match hexVal h1, hexVal h2, hexVal h3, hexVal h4 with
            | some a, some b, some x, some d =>
                strCons (Char.ofNat (((a * 16 + b) * 16 + x) * 16 + d)) (parseStringBody cs'')
            | _, _, _, _ => none
          | _ => none
        else none
    else strCons c (parseStringBody cs)
termination_by structural cs => cs

/-- Consumes a run of decimal digits, folding them onto an accumulator. -/
def parseDigitsAcc : List Char → Nat → Nat × List Char
  | [], acc => (acc, [])
  | c :: cs, acc =>
    if c.isDigit then parseDigitsAcc cs (acc * 10 + (c.toNat - 48)) else (acc, c :: cs)

/-- Parses a nonempty run of decimal digits into a natural number. -/
def parseNatNum : List Char → Option (Nat × List Char)
  | [] => none
  | c :: cs => if c.isDigit then some (parseDigitsAcc cs (c.toNat - 48)) else none

/-- Consumes an expected literal run of characters. -/
def expectChars : List Char → List Char → Option (List Char)
  | [], cs => some cs
  | _ :: _, [] => none
  | p :: ps, c :: cs => if c = p then expectChars ps cs else none

mutual

/-- Fuelled recursive-descent parser for one JSON value (`JSON.parse` on the
whitespace-free grammar that `JSON.stringify` emits). -/
def parseValue : Nat → List Char → Option (Json × List Char)
  | 0, _ => none
  | _ + 1, [] => none
  | fuel + 1, c :: cs =>
    if c = 'n' then (expectChars ['u', 'l', 'l'] cs).map (fun r => (Json.null, r))
    else if c = 't' then (expectChars ['r', 'u', 'e'] cs).map (fun r => (Json.bool true, r))
    else if c = 'f' then (expectChars ['a', 'l', 's', 'e'] cs).map (fun r => (Json.bool false, r))
    else if c = '"' then (parseStringBody cs).map (fun p => (Json.str p.1, p.2))
    else if c = '[' then
      match cs with
      | [] => none
      | c2 :: cs2 =>
        if c2 = ']' then some (Json.arr [], cs2)
        else
          match parseValue fuel (c2 :: cs2) with
          | none => none
          | some (e, r) =>
            match parseElemsTail fuel r with
            | none => none
            | some (es, r2) => some (Json.arr (e :: es), r2)
    else if c = leftBrace then
      match cs with
      | [] => none
      | c2 :: cs2 =>
        if c2 = rightBrace then some (Json.obj [], cs2)
        else if c2 = '"' then
          match parseStringBody cs2 with
          | none => none
          | some (k, r) =>
            match r with
            | ':' :: r2 =>
              match parseValue fuel r2 with
              | none => none
              | some (v, r3) =>
                match parseFieldsTail fuel r3 with
                | none => none
                | some (fs, r4) => some (Json.obj ((k, v) :: fs), r4)
            | _ => none
        else none
    else if c = '-' then (parseNatNum cs).map (fun p => (Json.num (-(p.1 : Int)), p.2))
    else if c.isDigit then (parseNatNum (c :: cs)).map (fun p => (Json.num ((p.1 : Int)), p.2))
    else none

/-- Parses `(',' value)* ']'`, the tail of a nonempty JSON array. -/
def parseElemsTail : Nat → List Char → Option (List Json × List Char)
  | 0, _ => none
  | _ + 1, [] => none
  | fuel + 1, c :: cs =>
    if c = ']' then some ([], cs)
    else if c = ',' then
      match parseValue fuel cs with
      | none => none
      | some (e, r) =>
        match parseElemsTail fuel r with
        | none => none
        | some (es, r2) => some (e :: es, r2)
    else none

/-- Parses `(',' string ':' value)* closing-brace`, the tail of a nonempty JSON object. -/
def parseFieldsTail : Nat → List Char → Option (List (String × Json) × List Char)
  | 0, _ => none
  | _ + 1, [] => none
  | fuel + 1, c :: cs =>
    if c = rightBrace then some ([], cs)
    else if c = ',' then
      match cs with
      | '"' :: cs2 =>
        match parseStringBody cs2 with
        | none => none
        | some (k, r) =>
          match r with
          | ':' :: r2 =>
            match parseValue fuel r2 with
            | none => none
            | some (v, r3) =>
              match parseFieldsTail fuel r3 with
              | none => none
              | some (fs, r4) => some ((k, v) :: fs, r4)
          | _ => none
      | _ => none
    else none

end

/-- The model of `JSON.parse`: the whole input must be one JSON value. -/
def Json.parse (s : String) : Option Json :=
  match parseValue (s.data.length + 1) s.data with
  | some (j, []) => some j
  | _ => none

/-- The in-memory topic name (`IN_MEMORY_TOPIC` in the event-bus module). -/
def IN_MEMORY_TOPIC : String := "QUEUE_UPDATED"

/-- Identifies each `console.log` / `console.error` site of the event-bus module. -/
inductive LogTag where
  | inMemoryMode        -- "Event bus mode: in-memory"
  | producerConnected   -- "Kafka Producer connected."
  | consumerSubscribed  -- "Kafka Consumer subscribed to topic ..."
  | consumerRunning     -- "Kafka Consumer is running."
  | initFailed          -- "Kafka initialization failed. Falling back to in-memory mode."
  | sentEvent           -- "Sent event to Kafka topic ..."
  | publishError        -- "Error publishing to Kafka:"
  | receivedEvent       -- "Received event from Kafka topic ..."
  | messageError        -- "Error processing Kafka message:"
  | producerDisconnected
  | consumerDisconnected
deriving DecidableEq

/-- One observable effect of the event-bus module on its collaborators.
Connection and send actions carry whether the underlying broker call
succeeded; `localPublish` is a `pubsub.publish` on the in-memory channel. -/
inductive Act where
  | localPublish (payload : Json)
  | producerConnect (ok : Bool)
  | consumerConnect (ok : Bool)
  | consumerSubscribe (ok : Bool)
  | consumerRun (ok : Bool)
  | brokerSend (value : String) (ok : Bool)
  | producerDisconnect (ok : Bool)
  | consumerDisconnect (ok : Bool)
  | log (tag : LogTag)

/-- The module-level mutable state of the event-bus module, plus the openness
of the two underlying broker connections (world state the module does not
itself store, needed to express connection-leak properties).
`kafkaProducer` / `kafkaConsumer` model whether those variables hold a
client reference (non-null). -/
structure BusState where
  kafkaProducer : Bool
  kafkaConsumer : Bool
  kafkaConsumerStarted : Bool
  producerOpen : Bool
  consumerOpen : Bool
deriving DecidableEq

/-- State at module load: all references null, no connection open. -/
def initialState : BusState :=
  { kafkaProducer := false, kafkaConsumer := false, kafkaConsumerStarted := false,
    producerOpen := false, consumerOpen := false }

/-- The environment variables the module reads. -/
structure Config where
  KAFKA_ENABLE : Option String
  KAFKA_BROKERS : Option String
  KAFKA_CLIENT_ID : Option String
  KAFKA_QUEUE_TOPIC : Option String
deriving DecidableEq

/-- JavaScript truthiness of a possibly-undefined string environment variable. -/
def truthy : Option String → Bool
  | none => false
  | some s => !(s == "")

/-- The module-level `useKafka = KAFKA_ENABLE === 'true' && KAFKA_BROKERS`. -/
def useKafka (cfg : Config) : Bool :=
  (cfg.KAFKA_ENABLE == some "true") && truthy cfg.KAFKA_BROKERS

/-- Which of the awaited broker calls inside `initializeKafka` succeed. -/
structure InitEnv where
  producerConnectOk : Bool
  consumerConnectOk : Bool
  subscribeOk : Bool
  runOk : Bool
deriving DecidableEq

/-- Whether some broker call inside the `try` block of `initializeKafka` fails. -/
def InitEnv.fails (env : InitEnv) : Bool :=
  !(env.producerConnectOk && env.consumerConnectOk && env.subscribeOk && env.runOk)

/-- Whether the `producer.send` awaited inside `publishQueueUpdate` succeeds. -/
structure SendEnv where
  sendOk : Bool
deriving DecidableEq

/-- Whether each `disconnect` awaited inside `shutdown` succeeds. -/
structure ShutdownEnv where
  producerDisconnectOk : Bool
  consumerDisconnectOk : Bool
deriving DecidableEq

/-- Result of running one async operation of the module: whether it rejected
(propagated a JavaScript exception to its caller), the state it left behind,
and the actions it performed, in order. -/
structure Outcome where
  threw : Bool
  state : BusState
  trace : List Act

/-- The argument the module hands to `pubsub.publish` for a payload:
`\x7b queueUpdated: eventPayload \x7d`. -/
def wrapPayload (p : Json) : Json := Json.obj [("queueUpdated", p)]

/-- The `initializeKafka` routine (the facade's `start`): on `useKafka` it connects the
producer, connects and subscribes the consumer and starts its run loop; any
failure is caught by the single `catch`, which logs and nulls
`kafkaProducer` (and nothing else).  The `catch` never disconnects. -/
def initializeKafka (cfg : Config) (env : InitEnv) (s : BusState) : Outcome :=
  if !useKafka cfg then
    { threw := false, state := s, trace := [Act.log LogTag.inMemoryMode] }
  else if !env.producerConnectOk then
    { threw := false
      state := { s with kafkaProducer := false }
      trace := [Act.producerConnect false, Act.log LogTag.initFailed] }
  else
    let s1 := { s with producerOpen := true, kafkaProducer := true }
    let t1 := [Act.producerConnect true, Act.log LogTag.producerConnected]
    if !env.consumerConnectOk then
      { threw := false
        state := { s1 with kafkaProducer := false }
        trace := t1 ++ [Act.consumerConnect false, Act.log LogTag.initFailed] }
    else
      let s2 := { s1 with consumerOpen := true, kafkaConsumer := true }
      let t2 := t1 ++ [Act.consumerConnect true]
      if !env.subscribeOk then
        { threw := false
          state := { s2 with kafkaProducer := false }
          trace := t2 ++ [Act.consumerSubscribe false, Act.log LogTag.initFailed] }
      else
        let t3 := t2 ++ [Act.consumerSubscribe true, Act.log LogTag.consumerSubscribed]
        if !env.runOk then
          { threw := false
            state := { s2 with kafkaProducer := false }
            trace := t3 ++ [Act.consumerRun false, Act.log LogTag.initFailed] }
        else
          { threw := false
            state := { s2 with kafkaConsumerStarted := true }
            trace := t3 ++ [Act.consumerRun true, Act.log LogTag.consumerRunning] }

/-- The facade's `publishQueueUpdate`: always `pubsub.publish` locally first; then, only
if `kafkaProducer` is non-null, `await producer.send` with the
`JSON.stringify`-ed payload inside a `try` whose `catch` logs the error. -/
def publishQueueUpdate (env : SendEnv) (s : BusState) (p : Json) : Outcome :=
  let localT := [Act.localPublish (wrapPayload p)]
  if s.kafkaProducer then
    if env.sendOk then
      { threw := false, state := s
        trace := localT ++ [Act.brokerSend (Json.stringify p) true, Act.log LogTag.sentEvent] }
    else
      { threw := false, state := s
        trace := localT ++ [Act.brokerSend (Json.stringify p) false, Act.log LogTag.publishError] }
  else
    { threw := false, state := s, trace := localT }

/-- The facade's `shutdown`: disconnects the producer if its reference is non-null, then
the consumer if its reference is non-null.  There is no `try`/`catch`: a
failing `disconnect` rejects `shutdown` and skips the remaining one. -/
def shutdown (env : ShutdownEnv) (s : BusState) : Outcome :=
  if s.kafkaProducer then
    if !env.producerDisconnectOk then
      { threw := true, state := s, trace := [Act.producerDisconnect false] }
    else
      let s1 := { s with producerOpen := false }
      let t1 := [Act.producerDisconnect true, Act.log LogTag.producerDisconnected]
      if s.kafkaConsumer then
        if !env.consumerDisconnectOk then
          { threw := true, state := s1, trace := t1 ++ [Act.consumerDisconnect false] }
        else
          { threw := false, state := { s1 with consumerOpen := false }
            trace := t1 ++ [Act.consumerDisconnect true, Act.log LogTag.consumerDisconnected] }
      else
        { threw := false, state := s1, trace := t1 }
  else
    if s.kafkaConsumer then
      if !env.consumerDisconnectOk then
        { threw := true, state := s, trace := [Act.consumerDisconnect false] }
      else
        { threw := false, state := { s with consumerOpen := false }
          trace := [Act.consumerDisconnect true, Act.log LogTag.consumerDisconnected] }
    else
      { threw := false, state := s, trace := [] }

/-- The consumer's `eachMessage` handler: `JSON.parse` the message value,
log the received event's `type` and republish the payload on the local
channel; the surrounding `try`/`catch` logs the error and otherwise does
nothing with the message.  The success-path log reads `eventPayload.type`,
which throws a `TypeError` when the parsed value is `null` — that exception
is caught by the same per-message `catch`, so the message `"null"` is
logged as an error and never republished. -/
def eachMessage (value : String) : List Act :=
  match Json.parse value with
  | some Json.null => [Act.log LogTag.messageError]
  | some p => [Act.log LogTag.receivedEvent, Act.localPublish (wrapPayload p)]
  | none => [Act.log LogTag.messageError]

/-- The consumer run loop: `eachMessage` on each received message in order;
because each handler call catches its own errors, the loop always continues. -/
def consumerRunLoop : List String → List Act
  | [] => []
  | m :: ms => eachMessage m ++ consumerRunLoop ms

/-- The facade's `asyncIterator`: subscribes to the local in-memory topic only, whatever
the bridge state. -/
def asyncIterator (_s : BusState) : List String := [IN_MEMORY_TOPIC]

/-- A facade operation invoked after `start` has completed. -/
inductive Op where
  | publish (sendOk : Bool) (p : Json)
  | shutdownCall (env : ShutdownEnv)
  | iter

/-- Runs one facade operation in the given state. -/
def runOp (s : BusState) : Op → Outcome
  | Op.publish ok p => publishQueueUpdate { sendOk := ok } s p
  | Op.shutdownCall env => shutdown env s
  | Op.iter => { threw := false, state := s, trace := [] }

/-- Runs a sequence of facade operations, threading the state (the hosting
process keeps running whether or not an individual operation rejected). -/
def runOps (s : BusState) : List Op → BusState × List Act
  | [] => (s, [])
  | op :: ops =>
    let o := runOp s op
    let r := runOps o.state ops
    (r.1, o.trace ++ r.2)

/-- Broker-connection attempts: any action that tries to (re-)establish the
producer connection, the consumer connection, its subscription or run loop. -/
def isConnectAttempt : Act → Bool
  | Act.producerConnect _ => true
  | Act.consumerConnect _ => true
  | Act.consumerSubscribe _ => true
  | Act.consumerRun _ => true
  | _ => false

/-- The local-channel restriction of a trace: the `pubsub.publish` calls. -/
def localDeliveries : List Act → List Json
  | [] => []
  | Act.localPublish p :: t => p :: localDeliveries t
  | _ :: t => localDeliveries t

/-- A character list that does not begin with a decimal digit (what may
legally follow a serialized JSON number). -/
def noDigitStart : List Char → Bool
  | [] => true
  | c :: _ => !c.isDigit

theorem digitChar_isDigit {d : Nat} (h : d < 10) : (digitChar d).isDigit = true := by
  interval_cases d <;> decide

theorem digitChar_toNat {d : Nat} (h : d < 10) : (digitChar d).toNat = 48 + d := by
  interval_cases d <;> decide

theorem ne_of_isDigit {c x : Char} (h : c.isDigit = true) (hx : x.isDigit = false) :
    c ≠ x := by
  intro he
  rw [he, hx] at h
  exact Bool.noConfusion h

theorem parseDigitsAcc_spec (ds : List Nat) (hds : ∀ d ∈ ds, d < 10) (acc : Nat)
    (rest : List Char) (hr : noDigitStart rest = true) :
    parseDigitsAcc (ds.map digitChar ++ rest) acc
      = (ds.foldl (fun a d => a * 10 + d) acc, rest) := by
  induction ds generalizing acc with
  | nil =>
    match rest, hr with
    | [], _ => rfl
    | c :: t, hr =>
      simp only [noDigitStart, Bool.not_eq_true'] at hr
      simp [parseDigitsAcc, hr]
  | cons d ds ih =>
    have hd : d < 10 := hds d (List.mem_cons_self d ds)
    have hds' : ∀ x ∈ ds, x < 10 := fun x hx => hds x (List.mem_cons_of_mem d hx)
    simp only [List.map_cons, List.cons_append, parseDigitsAcc, digitChar_isDigit hd,
      if_true, digitChar_toNat hd, List.foldl_cons]
    rw [show 48 + d - 48 = d by omega]
    exact ih hds' (acc * 10 + d)

theorem foldl_digits_reverse (l : List Nat) (acc : Nat) :
    l.reverse.foldl (fun a d => a * 10 + d) acc
      = acc * 10 ^ l.length + Nat.ofDigits 10 l := by
  induction l generalizing acc with
  | nil => simp
  | cons d ds ih =>
    simp only [List.reverse_cons, List.foldl_append, List.foldl_cons, List.foldl_nil,
      List.length_cons, Nat.ofDigits_cons, ih]
    ring

theorem natChars_ne_nil (m : Nat) : natChars m ≠ [] := by
  unfold natChars
  split
  · exact fun h => List.noConfusion h
  · rename_i hm
    intro h
    rw [List.reverse_eq_nil_iff, List.map_eq_nil_iff, Nat.digits_eq_nil_iff_eq_zero] at h
    exact hm h

theorem natChars_all_digit (m : Nat) : ∀ c ∈ natChars m, c.isDigit = true := by
  intro c hc
  unfold natChars at hc
  split at hc
  · rcases List.mem_singleton.mp hc with rfl
    decide
  · rw [List.mem_reverse, List.mem_map] at hc
    obtain ⟨d, hd, rfl⟩ := hc
    exact digitChar_isDigit (Nat.digits_lt_base (by norm_num) hd)

theorem parseNatNum_natChars (m : Nat) (rest : List Char) (hr : noDigitStart rest = true) :
    parseNatNum (natChars m ++ rest) = some (m, rest) := by
  by_cases hm : m = 0
  · subst hm
    have h0 : parseDigitsAcc (([] : List Nat).map digitChar ++ rest) 0 = (0, rest) :=
      parseDigitsAcc_spec [] (by simp) 0 rest hr
    simp only [List.map_nil, List.nil_append] at h0
    simp [natChars, parseNatNum, h0]
  · have hmap : natChars m = ((Nat.digits 10 m).reverse).map digitChar := by
      simp [natChars, hm, List.map_reverse]
    have hlt : ∀ d ∈ (Nat.digits 10 m).reverse, d < 10 := by
      intro d hd
      exact Nat.digits_lt_base (by norm_num) (List.mem_reverse.mp hd)
    obtain ⟨d, ds, hds⟩ : ∃ d ds, (Nat.digits 10 m).reverse = d :: ds := by
      match h : (Nat.digits 10 m).reverse with
      | [] =>
        rw [List.reverse_eq_nil_iff, Nat.digits_eq_nil_iff_eq_zero] at h
        exact absurd h hm
      | d :: ds => exact ⟨d, ds, rfl⟩
    have hd0 : d < 10 := hlt d (hds ▸ List.mem_cons_self d ds)
    have hds' : ∀ x ∈ ds, x < 10 := fun x hx => hlt x (hds ▸ List.mem_cons_of_mem d hx)
    rw [hmap, hds]
    simp only [List.map_cons, List.cons_append, parseNatNum, digitChar_isDigit hd0,
      if_true, digitChar_toNat hd0]
    rw [show 48 + d - 48 = d by omega, parseDigitsAcc_spec ds hds' d rest hr]
    have h1 := foldl_digits_reverse (Nat.digits 10 m) 0
    rw [hds, Nat.ofDigits_digits, List.foldl_cons] at h1
    simpa using h1

theorem hexVal_hexDigitChar {d : Nat} (h : d < 16) : hexVal (hexDigitChar d) = some d := by
  interval_cases d <;> decide

theorem strCons_some (c : Char) (l : List Char) (r : List Char) :
    strCons c (some (String.mk l, r)) = some (String.mk (c :: l), r) := rfl


theorem parseStringBody_escChars (l : List Char) (rest : List Char) :
    parseStringBody (escChars l ++ rest) = some (String.mk l, rest) := by
  induction l with
  | nil =>
    show parseStringBody ('"' :: rest) = _
    rw [parseStringBody.eq_def]
    simp
  | cons c cs ih =>
    show parseStringBody ((escapeChar c ++ escChars cs) ++ rest) = _
    rw [List.append_assoc]
    unfold escapeChar
    split_ifs with h1 h2 h3 h4 h5 h6 h7 h8
    · subst h1
      rw [show (['\\', '"'] : List Char) ++ (escChars cs ++ rest)
          = '\\' :: '"' :: (escChars cs ++ rest) from rfl, parseStringBody.eq_def]
      simp [ih, strCons_some]
    · subst h2
      rw [show (['\\', '\\'] : List Char) ++ (escChars cs ++ rest)
          = '\\' :: '\\' :: (escChars cs ++ rest) from rfl, parseStringBody.eq_def]
      simp [ih, strCons_some]
    · subst h3
      rw [show (['\\', 'n'] : List Char) ++ (escChars cs ++ rest)
          = '\\' :: 'n' :: (escChars cs ++ rest) from rfl, parseStringBody.eq_def]
      simp [ih, strCons_some]
    · subst h4
      rw [show (['\\', 'r'] : List Char) ++ (escChars cs ++ rest)
          = '\\' :: 'r' :: (escChars cs ++ rest) from rfl, parseStringBody.eq_def]
      simp [ih, strCons_some]
    · subst h5
      rw [show (['\\', 't'] : List Char) ++ (escChars cs ++ rest)
          = '\\' :: 't' :: (escChars cs ++ rest) from rfl, parseStringBody.eq_def]
      simp [ih, strCons_some]
    · rw [show (['\\', 'b'] : List Char) ++ (escChars cs ++ rest)
          = '\\' :: 'b' :: (escChars cs ++ rest) from rfl, parseStringBody.eq_def]
      simp [ih, strCons_some, h6]
    · rw [show (['\\', 'f'] : List Char) ++ (escChars cs ++ rest)
          = '\\' :: 'f' :: (escChars cs ++ rest) from rfl, parseStringBody.eq_def]
      simp [ih, strCons_some, h7]
    · have hhi : c.toNat / 16 < 16 := by omega
      have hlo : c.toNat % 16 < 16 := Nat.mod_lt _ (by norm_num)
      rw [show (['\\', 'u', '0', '0', hexDigitChar (c.toNat / 16),
            hexDigitChar (c.toNat % 16)] : List Char) ++ (escChars cs ++ rest)
          = '\\' :: 'u' :: '0' :: '0' :: hexDigitChar (c.toNat / 16)
            :: hexDigitChar (c.toNat % 16) :: (escChars cs ++ rest) from rfl,
        parseStringBody.eq_def]
      simp [hexVal_hexDigitChar hhi, hexVal_hexDigitChar hlo, ih, strCons_some,
        show hexVal '0' = some 0 from rfl]
      rw [show (c.toNat / 16 * 16 + c.toNat % 16 : Nat) = c.toNat by omega,
        Char.ofNat_toNat]
    · show parseStringBody (c :: (escChars cs ++ rest)) = _
      rw [parseStringBody.eq_def]
      simp [h1, h2, ih, strCons_some]

mutual

/-- Parser fuel sufficient for one JSON value. -/
def jsonFuel : Json → Nat
  | Json.null => 1
  | Json.bool _ => 1
  | Json.num _ => 1
  | Json.str _ => 1
  | Json.arr [] => 1
  | Json.arr (e :: es) => 1 + jsonFuel e + tailFuel es
  | Json.obj [] => 1
  | Json.obj (f :: fs) => 1 + jsonFuel f.2 + fieldsFuel fs

/-- Parser fuel sufficient for the tail of a nonempty array. -/
def tailFuel : List Json → Nat
  | [] => 1
  | e :: es => 1 + jsonFuel e + tailFuel es

/-- Parser fuel sufficient for the tail of a nonempty object. -/
def fieldsFuel : List (String × Json) → Nat
  | [] => 1
  | f :: fs => 1 + jsonFuel f.2 + fieldsFuel fs

end

theorem jsonFuel_pos (j : Json) : 1 ≤ jsonFuel j := by
  cases j with
  | null => simp [jsonFuel]
  | bool b => simp [jsonFuel]
  | num n => simp [jsonFuel]
  | str s => simp [jsonFuel]
  | arr es => cases es <;> simp only [jsonFuel] <;> omega
  | obj fs => cases fs <;> simp only [jsonFuel] <;> omega

theorem tailFuel_pos (es : List Json) : 1 ≤ tailFuel es := by
  cases es <;> simp only [tailFuel] <;> omega

theorem fieldsFuel_pos (fs : List (String × Json)) : 1 ≤ fieldsFuel fs := by
  cases fs <;> simp only [fieldsFuel] <;> omega

theorem toChars_head (j : Json) :
    ∃ c t, Json.toChars j = c :: t ∧ c ≠ ']' := by
  cases j with
  | null => exact ⟨'n', _, rfl, by decide⟩
  | bool b =>
    cases b with
    | false => exact ⟨'f', _, rfl, by decide⟩
    | true => exact ⟨'t', _, rfl, by decide⟩
  | num n =>
    cases n with
    | ofNat m =>
      obtain ⟨c, t, hct⟩ : ∃ c t, natChars m = c :: t := by
        match h : natChars m with
        | [] => exact absurd h (natChars_ne_nil m)
        | c :: t => exact ⟨c, t, rfl⟩
      have hcd : c.isDigit = true := natChars_all_digit m c (hct ▸ List.mem_cons_self c t)
      exact ⟨c, t, hct, ne_of_isDigit hcd (by decide)⟩
    | negSucc m => exact ⟨'-', _, rfl, by decide⟩
  | str s => exact ⟨'"', _, rfl, by decide⟩
  | arr es =>
    cases es with
    | nil => exact ⟨'[', _, rfl, by decide⟩
    | cons e es => exact ⟨'[', _, rfl, by decide⟩
  | obj fs =>
    cases fs with
    | nil => exact ⟨leftBrace, _, rfl, by decide⟩
    | cons f fs => exact ⟨leftBrace, _, rfl, by decide⟩

theorem noDigitStart_arrTail (es : List Json) (rest : List Char) :
    noDigitStart (arrTail es ++ rest) = true := by
  cases es <;> rfl

theorem noDigitStart_objTail (fs : List (String × Json)) (rest : List Char) :
    noDigitStart (objTail fs ++ rest) = true := by
  cases fs <;> rfl

theorem parseValue_digit (fuel : Nat) (c : Char) (cs : List Char) (h : c.isDigit = true) :
    parseValue (fuel + 1) (c :: cs)
      = (parseNatNum (c :: cs)).map (fun p => (Json.num ((p.1 : Int)), p.2)) := by
  have hn : c ≠ 'n' := ne_of_isDigit h (by decide)
  have ht : c ≠ 't' := ne_of_isDigit h (by decide)
  have hf : c ≠ 'f' := ne_of_isDigit h (by decide)
  have hq : c ≠ '"' := ne_of_isDigit h (by decide)
  have hb : c ≠ '[' := ne_of_isDigit h (by decide)
  have hl : c ≠ leftBrace := ne_of_isDigit h (by decide)
  have hm : c ≠ '-' := ne_of_isDigit h (by decide)
  rw [parseValue.eq_def]
  simp [hn, ht, hf, hq, hb, hl, hm, h]

theorem parseValue_num (fuel : Nat) (n : Int) (rest : List Char)
    (hr : noDigitStart rest = true) :
    parseValue (fuel + 1) (intChars n ++ rest) = some (Json.num n, rest) := by
  cases n with
  | ofNat m =>
    obtain ⟨c, t, hct⟩ : ∃ c t, natChars m = c :: t := by
      match h : natChars m with
      | [] => exact absurd h (natChars_ne_nil m)
      | c :: t => exact ⟨c, t, rfl⟩
    have hcd : c.isDigit = true := natChars_all_digit m c (hct ▸ List.mem_cons_self c t)
    show parseValue (fuel + 1) (natChars m ++ rest) = _
    rw [hct, List.cons_append, parseValue_digit fuel c (t ++ rest) hcd,
      ← List.cons_append, ← hct, parseNatNum_natChars m rest hr]
    simp
  | negSucc m =>
    show parseValue (fuel + 1) ('-' :: (natChars (m + 1) ++ rest)) = _
    rw [show parseValue (fuel + 1) ('-' :: (natChars (m + 1) ++ rest))
        = (parseNatNum (natChars (m + 1) ++ rest)).map
            (fun p => (Json.num (-(p.1 : Int)), p.2)) from rfl,
      parseNatNum_natChars (m + 1) rest hr]
    simp [Int.negSucc_eq]

theorem parse_toChars_aux : ∀ fuel : Nat,
    (∀ j rest, jsonFuel j ≤ fuel → noDigitStart rest = true →
      parseValue fuel (Json.toChars j ++ rest) = some (j, rest))
    ∧ (∀ es rest, tailFuel es ≤ fuel →
      parseElemsTail fuel (arrTail es ++ rest) = some (es, rest))
    ∧ (∀ fs rest, fieldsFuel fs ≤ fuel →
      parseFieldsTail fuel (objTail fs ++ rest) = some (fs, rest)) := by
  intro fuel
  induction fuel with
  | zero =>
    refine ⟨fun j rest hf _ => absurd hf (by have := jsonFuel_pos j; omega),
      fun es rest hf => absurd hf (by have := tailFuel_pos es; omega),
      fun fs rest hf => absurd hf (by have := fieldsFuel_pos fs; omega)⟩
  | succ fuel ih =>
    obtain ⟨ihA, ihB, ihC⟩ := ih
    refine ⟨?_, ?_, ?_⟩
    · intro j rest hf hr
      cases j with
      | null => rfl
      | bool b => cases b <;> rfl
      | num n => exact parseValue_num fuel n rest hr
      | str s =>
        show parseValue (fuel + 1) ('"' :: (escChars s.data ++ rest)) = _
        rw [show parseValue (fuel + 1) ('"' :: (escChars s.data ++ rest))
            = (parseStringBody (escChars s.data ++ rest)).map
                (fun p => (Json.str p.1, p.2)) from rfl,
          parseStringBody_escChars]
        rfl
      | arr es =>
        cases es with
        | nil => rfl
        | cons e es =>
          obtain ⟨c2, t, hct, hne⟩ := toChars_head e
          have hf1 : jsonFuel e ≤ fuel := by simp only [jsonFuel] at hf; omega
          have hf2 : tailFuel es ≤ fuel := by simp only [jsonFuel] at hf; omega
          have hA := ihA e (arrTail es ++ rest) hf1 (noDigitStart_arrTail es rest)
          have hB := ihB es rest hf2
          have hA' : parseValue fuel (c2 :: (t ++ (arrTail es ++ rest)))
              = some (e, arrTail es ++ rest) := by
            rw [← List.cons_append, ← hct]; exact hA
          show parseValue (fuel + 1)
              (('[' :: (Json.toChars e ++ arrTail es)) ++ rest) = _
          rw [List.cons_append, List.append_assoc, hct, List.cons_append,
            parseValue.eq_def]
          simp [hne, hA', hB]
      | obj fs =>
        cases fs with
        | nil => rfl
        | cons f fs =>
          obtain ⟨k, v⟩ := f
          have hf1 : jsonFuel v ≤ fuel := by simp only [jsonFuel] at hf; omega
          have hf2 : fieldsFuel fs ≤ fuel := by simp only [jsonFuel] at hf; omega
          have hA := ihA v (objTail fs ++ rest) hf1 (noDigitStart_objTail fs rest)
          have hC := ihC fs rest hf2
          show parseValue (fuel + 1)
              ((leftBrace :: (escapeString k ++ ':' :: Json.toChars v ++ objTail fs))
                ++ rest) = _
          rw [List.cons_append, parseValue.eq_def]
          have hkey : parseStringBody
              (escChars k.data ++ (':' :: (Json.toChars v ++ (objTail fs ++ rest))))
              = some (k, ':' :: (Json.toChars v ++ (objTail fs ++ rest))) := by
            rw [parseStringBody_escChars]
          have harr : (escapeString k ++ ':' :: Json.toChars v ++ objTail fs) ++ rest
              = '"' :: (escChars k.data ++ (':' :: (Json.toChars v ++ (objTail fs ++ rest)))) := by
            show ('"' :: escChars k.data ++ ':' :: Json.toChars v ++ objTail fs) ++ rest = _
            simp [List.append_assoc]
          rw [harr]
          simp [hkey, hA, hC, List.append_assoc,
            show ¬(leftBrace = 'n') by decide, show ¬(leftBrace = 't') by decide,
            show ¬(leftBrace = 'f') by decide, show ¬(leftBrace = '"') by decide,
            show ¬(leftBrace = '[') by decide, show ¬(('"' : Char) = rightBrace) by decide]
    · intro es rest hf
      cases es with
      | nil => rfl
      | cons e es =>
        obtain ⟨c2, t, hct, hne⟩ := toChars_head e
        have hf1 : jsonFuel e ≤ fuel := by simp only [tailFuel] at hf; omega
        have hf2 : tailFuel es ≤ fuel := by simp only [tailFuel] at hf; omega
        have hA := ihA e (arrTail es ++ rest) hf1 (noDigitStart_arrTail es rest)
        have hB := ihB es rest hf2
        show parseElemsTail (fuel + 1)
            ((',' :: (Json.toChars e ++ arrTail es)) ++ rest) = _
        rw [List.cons_append, List.append_assoc, parseElemsTail.eq_def]
        simp [hA, hB]
    · intro fs rest hf
      cases fs with
      | nil => rfl
      | cons f fs =>
        obtain ⟨k, v⟩ := f
        have hf1 : jsonFuel v ≤ fuel := by simp only [fieldsFuel] at hf; omega
        have hf2 : fieldsFuel fs ≤ fuel := by simp only [fieldsFuel] at hf; omega
        have hA := ihA v (objTail fs ++ rest) hf1 (noDigitStart_objTail fs rest)
        have hC := ihC fs rest hf2
        have hkey : parseStringBody
            (escChars k.data ++ (':' :: (Json.toChars v ++ (objTail fs ++ rest))))
            = some (k, ':' :: (Json.toChars v ++ (objTail fs ++ rest))) := by
          rw [parseStringBody_escChars]
        show parseFieldsTail (fuel + 1)
            ((',' :: (escapeString k ++ ':' :: Json.toChars v ++ objTail fs)) ++ rest) = _
        have harr : (',' :: (escapeString k ++ ':' :: Json.toChars v ++ objTail fs)) ++ rest
            = ',' :: '"' :: (escChars k.data
                ++ (':' :: (Json.toChars v ++ (objTail fs ++ rest)))) := by
          show (',' :: ('"' :: escChars k.data ++ ':' :: Json.toChars v ++ objTail fs)) ++ rest = _
          simp [List.append_assoc]
        rw [harr, parseFieldsTail.eq_def]
        simp [hkey, hA, hC, show ¬((',' : Char) = rightBrace) by decide]

theorem natChars_length_pos (m : Nat) : 1 ≤ (natChars m).length := by
  cases h : natChars m with
  | nil => exact absurd h (natChars_ne_nil m)
  | cons c t => simp

theorem intChars_length_pos (n : Int) : 1 ≤ (intChars n).length := by
  cases n with
  | ofNat m => exact natChars_length_pos m
  | negSucc m => simp [intChars]

mutual

theorem jsonFuel_le_length (j : Json) : jsonFuel j ≤ (Json.toChars j).length := by
  cases j with
  | null => simp [jsonFuel, Json.toChars]
  | bool b => cases b <;> simp [jsonFuel, Json.toChars]
  | num n =>
    have := intChars_length_pos n
    simp only [jsonFuel]
    show 1 ≤ (intChars n).length
    omega
  | str s => simp [jsonFuel, Json.toChars, escapeString]
  | arr es =>
    cases es with
    | nil => simp [jsonFuel, Json.toChars]
    | cons e es =>
      have h1 := jsonFuel_le_length e
      have h2 := tailFuel_le_length es
      simp only [jsonFuel, Json.toChars, List.length_cons, List.length_append]
      omega
  | obj fs =>
    cases fs with
    | nil => simp [jsonFuel, Json.toChars]
    | cons f fs =>
      have h1 := jsonFuel_le_length f.2
      have h2 := fieldsFuel_le_length fs
      simp only [jsonFuel, Json.toChars, List.length_cons, List.length_append]
      omega

theorem tailFuel_le_length (es : List Json) : tailFuel es ≤ (arrTail es).length := by
  cases es with
  | nil => simp [tailFuel, arrTail]
  | cons e es =>
    have h1 := jsonFuel_le_length e
    have h2 := tailFuel_le_length es
    simp only [tailFuel, arrTail, List.length_cons, List.length_append]
    omega

theorem fieldsFuel_le_length (fs : List (String × Json)) :
    fieldsFuel fs ≤ (objTail fs).length := by
  cases fs with
  | nil => simp [fieldsFuel, objTail]
  | cons f fs =>
    have h1 := jsonFuel_le_length f.2
    have h2 := fieldsFuel_le_length fs
    simp only [fieldsFuel, objTail, List.length_cons, List.length_append]
    omega

end

/-- Serialize/deserialize round trip: `JSON.parse` of `JSON.stringify` of any
payload recovers the payload unchanged. -/
theorem parse_stringify (j : Json) : Json.parse (Json.stringify j) = some j := by
  have hle : jsonFuel j ≤ (Json.toChars j).length + 1 := by
    have := jsonFuel_le_length j; omega
  have h := (parse_toChars_aux ((Json.toChars j).length + 1)).1 j [] hle rfl
  rw [List.append_nil] at h
  show (match parseValue ((Json.toChars j).length + 1) (Json.toChars j) with
    | some (j', []) => some j'
    | _ => none) = some j
  rw [h]

theorem publishQueueUpdate_trace (env : SendEnv) (s : BusState) (p : Json) :
    (publishQueueUpdate env s p).trace
      = Act.localPublish (wrapPayload p)
        :: (if s.kafkaProducer then
              [Act.brokerSend (Json.stringify p) env.sendOk,
               Act.log (if env.sendOk then LogTag.sentEvent else LogTag.publishError)]
            else []) := by
  obtain ⟨so⟩ := env
  unfold publishQueueUpdate
  by_cases hp : s.kafkaProducer = true <;> cases so <;> simp [hp]

theorem publishQueueUpdate_threw (env : SendEnv) (s : BusState) (p : Json) :
    (publishQueueUpdate env s p).threw = false := by
  obtain ⟨so⟩ := env
  unfold publishQueueUpdate
  by_cases hp : s.kafkaProducer = true <;> cases so <;> simp [hp]

theorem publishQueueUpdate_state (env : SendEnv) (s : BusState) (p : Json) :
    (publishQueueUpdate env s p).state = s := by
  obtain ⟨so⟩ := env
  unfold publishQueueUpdate
  by_cases hp : s.kafkaProducer = true <;> cases so <;> simp [hp]

theorem localPublish_mem (env : SendEnv) (s : BusState) (p : Json) :
    Act.localPublish (wrapPayload p) ∈ (publishQueueUpdate env s p).trace := by
  rw [publishQueueUpdate_trace]
  exact List.mem_cons_self _ _

/-- A state in which the bridge is fully connected (both references set,
both connections open), as after a successful `initializeKafka`. -/
def bridgedState : BusState :=
  { kafkaProducer := true, kafkaConsumer := true, kafkaConsumerStarted := true,
    producerOpen := true, consumerOpen := true }

/-- C1: `publishQueueUpdate` always performs the local in-memory publish of
the payload first (it is the head of its action trace), and a broker send
appears in the remainder of the trace if and only if the bridge producer is
active — so the send, when attempted, happens strictly after the local
publish. -/
theorem c1_publish_local_first (env : SendEnv) (s : BusState) (p : Json) :
    ∃ rest, (publishQueueUpdate env s p).trace
        = Act.localPublish (wrapPayload p) :: rest
      ∧ ((∃ v ok, Act.brokerSend v ok ∈ rest) ↔ s.kafkaProducer = true) := by
  refine ⟨_, publishQueueUpdate_trace env s p, ?_⟩
  by_cases hp : s.kafkaProducer = true
  · simp only [hp, if_true]
    exact iff_of_true ⟨Json.stringify p, env.sendOk, List.mem_cons_self _ _⟩ trivial
  · simp only [hp, if_false]
    constructor
    · rintro ⟨v, ok, hv⟩
      exact absurd hv (List.not_mem_nil _)
    · intro h
      exact Bool.noConfusion h

/-- Witness for C1 at a concrete payload and state. -/
theorem c1_publish_local_first_witness :
    ∃ rest, (publishQueueUpdate { sendOk := true } bridgedState (Json.str "x")).trace
        = Act.localPublish (wrapPayload (Json.str "x")) :: rest
      ∧ ((∃ v ok, Act.brokerSend v ok ∈ rest) ↔ bridgedState.kafkaProducer = true) :=
  c1_publish_local_first { sendOk := true } bridgedState (Json.str "x")

/-- C3: when the bridge is active and the broker send fails, the failure is
caught inside `publishQueueUpdate` (no exception escapes) and logged, the
call returns exactly as on a successful send (same completion, same state),
and the local delivery is the head of the trace, before the send attempt. -/
theorem c3_send_failure_swallowed (s : BusState) (p : Json)
    (h : s.kafkaProducer = true) :
    (publishQueueUpdate { sendOk := false } s p).threw = false
    ∧ Act.log LogTag.publishError ∈ (publishQueueUpdate { sendOk := false } s p).trace
    ∧ (publishQueueUpdate { sendOk := false } s p).threw
        = (publishQueueUpdate { sendOk := true } s p).threw
    ∧ (publishQueueUpdate { sendOk := false } s p).state
        = (publishQueueUpdate { sendOk := true } s p).state
    ∧ ∃ rest, (publishQueueUpdate { sendOk := false } s p).trace
        = Act.localPublish (wrapPayload p) :: rest
      ∧ Act.brokerSend (Json.stringify p) false ∈ rest := by
  refine ⟨publishQueueUpdate_threw _ s p, ?_,
    by rw [publishQueueUpdate_threw, publishQueueUpdate_threw],
    by rw [publishQueueUpdate_state, publishQueueUpdate_state],
    ⟨_, publishQueueUpdate_trace _ s p, ?_⟩⟩
  · rw [publishQueueUpdate_trace]
    simp [h]
  · simp [h]

/-- Witness for C3 at a concrete connected state and payload. -/
theorem c3_send_failure_swallowed_witness :
    (publishQueueUpdate { sendOk := false } bridgedState (Json.str "x")).threw = false
    ∧ Act.log LogTag.publishError
        ∈ (publishQueueUpdate { sendOk := false } bridgedState (Json.str "x")).trace
    ∧ (publishQueueUpdate { sendOk := false } bridgedState (Json.str "x")).threw
        = (publishQueueUpdate { sendOk := true } bridgedState (Json.str "x")).threw
    ∧ (publishQueueUpdate { sendOk := false } bridgedState (Json.str "x")).state
        = (publishQueueUpdate { sendOk := true } bridgedState (Json.str "x")).state
    ∧ ∃ rest, (publishQueueUpdate { sendOk := false } bridgedState (Json.str "x")).trace
        = Act.localPublish (wrapPayload (Json.str "x")) :: rest
      ∧ Act.brokerSend (Json.stringify (Json.str "x")) false ∈ rest :=
  c3_send_failure_swallowed bridgedState (Json.str "x") rfl

/-- C10: `publishQueueUpdate` never rejects, in every bridge state and for
every send outcome, and the local publish is performed unconditionally. -/
theorem c10_publish_never_throws (env : SendEnv) (s : BusState) (p : Json) :
    (publishQueueUpdate env s p).threw = false
    ∧ Act.localPublish (wrapPayload p) ∈ (publishQueueUpdate env s p).trace :=
  ⟨publishQueueUpdate_threw env s p, localPublish_mem env s p⟩

/-- Witness for C10 at a concrete state (bridge failed: send would fail). -/
theorem c10_publish_never_throws_witness :
    (publishQueueUpdate { sendOk := false } initialState (Json.str "x")).threw = false
    ∧ Act.localPublish (wrapPayload (Json.str "x"))
        ∈ (publishQueueUpdate { sendOk := false } initialState (Json.str "x")).trace :=
  c10_publish_never_throws { sendOk := false } initialState (Json.str "x")

/-- C8: the payload handed to local subscribers and the payload serialized
for the broker come from the same value — every broker send in the trace
carries exactly `JSON.stringify` of the payload whose wrapped form was
published locally first — and the serialize/deserialize round trip returns
the payload unchanged (hence identical `type` and `subjectId` fields). -/
theorem c8_roundtrip_fidelity (p : Json) (s : BusState) (env : SendEnv) :
    (∃ rest, (publishQueueUpdate env s p).trace
        = Act.localPublish (wrapPayload p) :: rest
      ∧ ∀ v ok, Act.brokerSend v ok ∈ rest → v = Json.stringify p)
    ∧ Json.parse (Json.stringify p) = some p := by
  refine ⟨⟨_, publishQueueUpdate_trace env s p, ?_⟩, parse_stringify p⟩
  intro v ok hv
  by_cases hp : s.kafkaProducer = true
  · simp only [hp, if_true] at hv
    rcases List.mem_cons.mp hv with h1 | h2
    · exact (Act.brokerSend.injEq _ _ _ _).mp h1 |>.1
    · rcases List.mem_cons.mp h2 with h3 | h4
      · exact absurd h3 (by simp)
      · exact absurd h4 (List.not_mem_nil _)
  · simp only [hp, if_false] at hv
    exact absurd hv (List.not_mem_nil _)

/-- Witness for C8 at the spec's scenario payload. -/
theorem c8_roundtrip_fidelity_witness :
    (∃ rest, (publishQueueUpdate { sendOk := true } bridgedState
          (Json.obj [("type", Json.str "QUEUED"), ("subjectId", Json.str "song-1")])).trace
        = Act.localPublish (wrapPayload
            (Json.obj [("type", Json.str "QUEUED"), ("subjectId", Json.str "song-1")])) :: rest
      ∧ ∀ v ok, Act.brokerSend v ok ∈ rest →
          v = Json.stringify
              (Json.obj [("type", Json.str "QUEUED"), ("subjectId", Json.str "song-1")]))
    ∧ Json.parse (Json.stringify
          (Json.obj [("type", Json.str "QUEUED"), ("subjectId", Json.str "song-1")]))
        = some (Json.obj [("type", Json.str "QUEUED"), ("subjectId", Json.str "song-1")]) :=
  c8_roundtrip_fidelity
    (Json.obj [("type", Json.str "QUEUED"), ("subjectId", Json.str "song-1")])
    bridgedState { sendOk := true }

theorem initializeKafka_fail_spec (cfg : Config) (env : InitEnv) (s : BusState)
    (hk : useKafka cfg = true) (hfail : env.fails = true) :
    (initializeKafka cfg env s).threw = false
    ∧ (initializeKafka cfg env s).state.kafkaProducer = false
    ∧ Act.log LogTag.initFailed ∈ (initializeKafka cfg env s).trace := by
  obtain ⟨a, b, c, d⟩ := env
  simp only [InitEnv.fails, Bool.not_eq_true', Bool.and_eq_false_iff] at hfail
  unfold initializeKafka
  cases a <;> cases b <;> cases c <;> cases d <;> simp_all [hk]

/-- The concrete configuration of the spec's scenarios: bridging enabled. -/
def cfg0 : Config :=
  { KAFKA_ENABLE := some "true", KAFKA_BROKERS := some "localhost:9092",
    KAFKA_CLIENT_ID := some "nerdbox-gateway", KAFKA_QUEUE_TOPIC := some "queue-updates" }

/-- C2: whichever broker initialization step fails, `start` returns normally,
the bus is left in local-only mode (`kafkaProducer` cleared), the failure is
logged, and every subsequent publish still delivers to local subscribers. -/
theorem c2_start_failure_local_mode (cfg : Config) (env : InitEnv)
    (hk : useKafka cfg = true) (hfail : env.fails = true) :
    (initializeKafka cfg env initialState).threw = false
    ∧ (initializeKafka cfg env initialState).state.kafkaProducer = false
    ∧ Act.log LogTag.initFailed ∈ (initializeKafka cfg env initialState).trace
    ∧ ∀ p senv, Act.localPublish (wrapPayload p)
        ∈ (publishQueueUpdate senv (initializeKafka cfg env initialState).state p).trace := by
  obtain ⟨h1, h2, h3⟩ := initializeKafka_fail_spec cfg env initialState hk hfail
  exact ⟨h1, h2, h3, fun p senv => localPublish_mem senv _ p⟩

/-- Witness for C2: producer connect fails under the concrete configuration. -/
theorem c2_start_failure_local_mode_witness :
    (initializeKafka cfg0 ⟨false, true, true, true⟩ initialState).threw = false
    ∧ (initializeKafka cfg0 ⟨false, true, true, true⟩ initialState).state.kafkaProducer = false
    ∧ Act.log LogTag.initFailed
        ∈ (initializeKafka cfg0 ⟨false, true, true, true⟩ initialState).trace
    ∧ ∀ p senv, Act.localPublish (wrapPayload p)
        ∈ (publishQueueUpdate senv
            (initializeKafka cfg0 ⟨false, true, true, true⟩ initialState).state p).trace :=
  c2_start_failure_local_mode cfg0 ⟨false, true, true, true⟩ (by decide) (by decide)

theorem localDeliveries_publish (env : SendEnv) (s : BusState) (p : Json) :
    localDeliveries (publishQueueUpdate env s p).trace = [wrapPayload p] := by
  rw [publishQueueUpdate_trace]
  by_cases hp : s.kafkaProducer = true <;> by_cases he : env.sendOk = true <;>
    simp [hp, he, localDeliveries]

/-- C7: with bridging disabled (`useKafka` false), `start` performs no broker
connection attempt and leaves the state untouched; and — for any two bridge
states whatsoever — `publishQueueUpdate` makes exactly the same local-channel
deliveries, and `asyncIterator` subscribes to exactly the same local topic, so
the local observable behavior is identical to the bridging-enabled case. -/
theorem c7_disabled_observationally_identical (cfg : Config) (env : InitEnv)
    (hk : useKafka cfg = false) :
    (∀ a ∈ (initializeKafka cfg env initialState).trace, isConnectAttempt a = false)
    ∧ (initializeKafka cfg env initialState).state = initialState
    ∧ (∀ p senv s₁ s₂, localDeliveries (publishQueueUpdate senv s₁ p).trace
        = localDeliveries (publishQueueUpdate senv s₂ p).trace)
    ∧ (∀ s₁ s₂ : BusState, asyncIterator s₁ = asyncIterator s₂) := by
  refine ⟨?_, ?_, ?_, fun s₁ s₂ => rfl⟩
  · intro a ha
    unfold initializeKafka at ha
    simp only [hk, Bool.not_true, if_true] at ha
    rcases List.mem_singleton.mp ha with rfl
    rfl
  · unfold initializeKafka
    simp [hk]
  · intro p senv s₁ s₂
    rw [localDeliveries_publish, localDeliveries_publish]

/-- Witness for C7 at a concrete disabled configuration. -/
theorem c7_disabled_observationally_identical_witness :
    (∀ a ∈ (initializeKafka ⟨none, none, none, none⟩ ⟨true, true, true, true⟩
        initialState).trace, isConnectAttempt a = false)
    ∧ (initializeKafka ⟨none, none, none, none⟩ ⟨true, true, true, true⟩
        initialState).state = initialState
    ∧ (∀ p senv s₁ s₂, localDeliveries (publishQueueUpdate senv s₁ p).trace
        = localDeliveries (publishQueueUpdate senv s₂ p).trace)
    ∧ (∀ s₁ s₂ : BusState, asyncIterator s₁ = asyncIterator s₂) :=
  c7_disabled_observationally_identical ⟨none, none, none, none⟩
    ⟨true, true, true, true⟩ (by decide)

theorem consumerRunLoop_append (xs ys : List String) :
    consumerRunLoop (xs ++ ys) = consumerRunLoop xs ++ consumerRunLoop ys := by
  induction xs with
  | nil => rfl
  | cons m ms ih => simp [consumerRunLoop, ih]

theorem consumerRunLoop_delivers (ms : List String) (m : String) (p : Json)
    (hm : m ∈ ms) (hp : Json.parse m = some p) (hn : p ≠ Json.null) :
    Act.localPublish (wrapPayload p) ∈ consumerRunLoop ms := by
  induction ms with
  | nil => exact absurd hm (List.not_mem_nil _)
  | cons m' ms ih =>
    rcases List.mem_cons.mp hm with rfl | hm'
    · show Act.localPublish (wrapPayload p) ∈ eachMessage m ++ consumerRunLoop ms
      rw [eachMessage, hp]
      cases p with
      | null => exact absurd rfl hn
      | bool b => simp
      | num n => simp
      | str s => simp
      | arr es => simp
      | obj fs => simp
    · show Act.localPublish (wrapPayload p) ∈ eachMessage m' ++ consumerRunLoop ms
      exact List.mem_append_right _ (ih hm')

/-- C4 counterexample: after the malformed message `"oops"`, the well-formed
message `"null"` deserializes successfully (to JSON `null`), yet its payload
is never delivered to local subscribers: the handler's success-path log
reads `eventPayload.type`, which throws on `null` and is caught by the same
per-message `catch`, so the claim that every later well-formed message is
delivered fails at this input. -/
theorem c4_counterexample :
    Json.parse "oops" = none
    ∧ Json.parse "null" = some Json.null
    ∧ Act.localPublish (wrapPayload Json.null)
        ∉ consumerRunLoop (([] : List String) ++ "oops" :: ["null"]) := by
  refine ⟨rfl, rfl, ?_⟩
  rw [show consumerRunLoop (([] : List String) ++ "oops" :: ["null"])
      = [Act.log LogTag.messageError, Act.log LogTag.messageError] from rfl]
  intro h
  rcases List.mem_cons.mp h with h1 | h2
  · exact Act.noConfusion h1
  · rcases List.mem_cons.mp h2 with h3 | h4
    · exact Act.noConfusion h3
    · exact absurd h4 (List.not_mem_nil _)

/-- C4 amended: a broker message whose value fails to deserialize contributes
only a logged error — the loop structure around it is untouched — and every
well-formed message after it whose parsed value is not JSON `null` is still
parsed and delivered locally (the parsed value `null` is itself skipped,
because the success-path log reads `eventPayload.type`, which throws on
`null` and is caught by the same per-message `catch`). -/
theorem c4_malformed_isolated_amended (pre : List String) (bad : String)
    (suf : List String) (h : Json.parse bad = none) :
    consumerRunLoop (pre ++ bad :: suf)
      = consumerRunLoop pre ++ Act.log LogTag.messageError :: consumerRunLoop suf
    ∧ ∀ m ∈ suf, ∀ p, Json.parse m = some p → p ≠ Json.null →
        Act.localPublish (wrapPayload p) ∈ consumerRunLoop (pre ++ bad :: suf) := by
  constructor
  · rw [consumerRunLoop_append]
    show _ ++ (eachMessage bad ++ consumerRunLoop suf) = _
    rw [eachMessage, h]
    rfl
  · intro m hm p hp hn
    exact consumerRunLoop_delivers _ m p
      (List.mem_append_right pre (List.mem_cons_of_mem bad hm)) hp hn

/-- Witness for the amended C4: a malformed message between two well-formed,
non-null messages. -/
theorem c4_malformed_isolated_amended_witness :
    consumerRunLoop (["true"] ++ "oops" :: ["false"])
      = consumerRunLoop ["true"]
          ++ Act.log LogTag.messageError :: consumerRunLoop ["false"]
    ∧ ∀ m ∈ ["false"], ∀ p, Json.parse m = some p → p ≠ Json.null →
        Act.localPublish (wrapPayload p)
          ∈ consumerRunLoop (["true"] ++ "oops" :: ["false"]) :=
  c4_malformed_isolated_amended ["true"] "oops" ["false"] rfl

theorem runOp_no_reconnect (s : BusState) (op : Op) :
    (∀ a ∈ (runOp s op).trace, isConnectAttempt a = false)
    ∧ (runOp s op).state.kafkaProducer = s.kafkaProducer := by
  cases op with
  | publish ok p =>
    constructor
    · intro a ha
      rw [show runOp s (Op.publish ok p) = publishQueueUpdate { sendOk := ok } s p
          from rfl, publishQueueUpdate_trace] at ha
      rcases List.mem_cons.mp ha with rfl | ha'
      · rfl
      · by_cases hp : s.kafkaProducer = true
        · simp only [hp, if_true] at ha'
          rcases List.mem_cons.mp ha' with rfl | ha''
          · rfl
          · rcases List.mem_cons.mp ha'' with rfl | ha'''
            · rfl
            · exact absurd ha''' (List.not_mem_nil _)
        · simp only [hp, if_false] at ha'
          exact absurd ha' (List.not_mem_nil _)
    · rw [show runOp s (Op.publish ok p) = publishQueueUpdate { sendOk := ok } s p
          from rfl, publishQueueUpdate_state]
  | shutdownCall env =>
    obtain ⟨po, co⟩ := env
    show (∀ a ∈ (shutdown ⟨po, co⟩ s).trace, isConnectAttempt a = false)
      ∧ (shutdown ⟨po, co⟩ s).state.kafkaProducer = s.kafkaProducer
    obtain ⟨kp, kc, st, pn, cn⟩ := s
    unfold shutdown
    cases kp <;> cases kc <;> cases po <;> cases co <;> simp <;> decide
  | iter => exact ⟨fun a ha => absurd ha (List.not_mem_nil _), rfl⟩

theorem runOps_no_reconnect (ops : List Op) (s : BusState) :
    (∀ a ∈ (runOps s ops).2, isConnectAttempt a = false)
    ∧ (runOps s ops).1.kafkaProducer = s.kafkaProducer := by
  induction ops generalizing s with
  | nil => exact ⟨fun a ha => absurd ha (List.not_mem_nil _), rfl⟩
  | cons op ops ih =>
    obtain ⟨h1, h2⟩ := runOp_no_reconnect s op
    obtain ⟨h3, h4⟩ := ih (runOp s op).state
    constructor
    · intro a ha
      show isConnectAttempt a = false
      rcases List.mem_append.mp ha with h | h
      · exact h1 a h
      · exact h3 a h
    · show (runOps (runOp s op).state ops).1.kafkaProducer = _
      rw [h4, h2]

/-- C9: once `start` has failed, the bridge stays failed for the process
lifetime: after the one-shot `initializeKafka` the facade operations are
`publishQueueUpdate`, `shutdown` and `asyncIterator`, and no sequence of them
ever performs a connect, subscribe or run-loop attempt, nor re-establishes
the producer reference. -/
theorem c9_failed_state_terminal (cfg : Config) (env : InitEnv) (ops : List Op)
    (hk : useKafka cfg = true) (hfail : env.fails = true) :
    (initializeKafka cfg env initialState).state.kafkaProducer = false
    ∧ (∀ a ∈ (runOps (initializeKafka cfg env initialState).state ops).2,
        isConnectAttempt a = false)
    ∧ (runOps (initializeKafka cfg env initialState).state ops).1.kafkaProducer
        = false := by
  obtain ⟨-, h2, -⟩ := initializeKafka_fail_spec cfg env initialState hk hfail
  obtain ⟨h3, h4⟩ := runOps_no_reconnect ops (initializeKafka cfg env initialState).state
  exact ⟨h2, h3, h4.trans h2⟩

/-- Witness for C9: subscription failure, then a publish, a shutdown and a
subscribe. -/
theorem c9_failed_state_terminal_witness :
    (initializeKafka cfg0 ⟨true, true, false, true⟩ initialState).state.kafkaProducer = false
    ∧ (∀ a ∈ (runOps (initializeKafka cfg0 ⟨true, true, false, true⟩ initialState).state
          [Op.publish true (Json.str "x"), Op.shutdownCall ⟨true, true⟩, Op.iter]).2,
        isConnectAttempt a = false)
    ∧ (runOps (initializeKafka cfg0 ⟨true, true, false, true⟩ initialState).state
          [Op.publish true (Json.str "x"), Op.shutdownCall ⟨true, true⟩, Op.iter]).1.kafkaProducer
        = false :=
  c9_failed_state_terminal cfg0 ⟨true, true, false, true⟩
    [Op.publish true (Json.str "x"), Op.shutdownCall ⟨true, true⟩, Op.iter]
    (by decide) (by decide)

/-- Whether an action releases a broker connection. -/
def isDisconnect : Act → Bool
  | Act.producerDisconnect _ => true
  | Act.consumerDisconnect _ => true
  | _ => false

/-- Whether an action is a console log. -/
def isLog : Act → Bool
  | Act.log _ => true
  | _ => false

/-- Whether an action disconnects the consumer. -/
def isConsumerDisconnect : Act → Bool
  | Act.consumerDisconnect _ => true
  | _ => false

/-- C5 counterexample: with bridging enabled and the consumer subscription
failing after both connects succeeded, `start` returns with the producer
and consumer connections still open — the claimed release on every exit
path does not happen. -/
theorem c5_counterexample :
    useKafka cfg0 = true
    ∧ InitEnv.fails ⟨true, true, false, true⟩ = true
    ∧ ¬((initializeKafka cfg0 ⟨true, true, false, true⟩ initialState).state.producerOpen
          = false
        ∧ (initializeKafka cfg0 ⟨true, true, false, true⟩ initialState).state.consumerOpen
          = false) := by decide

/-- C5 amended: on the failure exit paths of `start` the error is caught and
the producer reference is cleared, but no disconnect of either connection is
performed: a connection opened before the failing step simply remains open
(the producer connection stays open whenever its connect succeeded, the
consumer connection whenever both connects succeeded). -/
theorem c5_amended_no_release_on_failure (cfg : Config) (env : InitEnv)
    (hk : useKafka cfg = true) (hfail : env.fails = true) :
    (initializeKafka cfg env initialState).threw = false
    ∧ (initializeKafka cfg env initialState).state.kafkaProducer = false
    ∧ (∀ a ∈ (initializeKafka cfg env initialState).trace, isDisconnect a = false)
    ∧ (initializeKafka cfg env initialState).state.producerOpen = env.producerConnectOk
    ∧ (initializeKafka cfg env initialState).state.consumerOpen
        = (env.producerConnectOk && env.consumerConnectOk) := by
  obtain ⟨a, b, c, d⟩ := env
  simp only [InitEnv.fails, Bool.not_eq_true', Bool.and_eq_false_iff] at hfail
  unfold initializeKafka
  simp only [hk, Bool.not_true, if_false]
  cases a <;> cases b <;> cases c <;> cases d <;> simp_all <;> decide

/-- Witness for the amended C5 at the counterexample's input. -/
theorem c5_amended_no_release_on_failure_witness :
    (initializeKafka cfg0 ⟨true, true, false, true⟩ initialState).threw = false
    ∧ (initializeKafka cfg0 ⟨true, true, false, true⟩ initialState).state.kafkaProducer
        = false
    ∧ (∀ a ∈ (initializeKafka cfg0 ⟨true, true, false, true⟩ initialState).trace,
        isDisconnect a = false)
    ∧ (initializeKafka cfg0 ⟨true, true, false, true⟩ initialState).state.producerOpen
        = (InitEnv.mk true true false true).producerConnectOk
    ∧ (initializeKafka cfg0 ⟨true, true, false, true⟩ initialState).state.consumerOpen
        = ((InitEnv.mk true true false true).producerConnectOk
            && (InitEnv.mk true true false true).consumerConnectOk) :=
  c5_amended_no_release_on_failure cfg0 ⟨true, true, false, true⟩ (by decide) (by decide)

/-- C6 counterexample: with both clients connected, a failing producer
disconnect makes `shutdown` reject without logging anything; the consumer
disconnect is skipped and that connection stays open — contradicting the
claim that the error is logged and shutdown proceeds to completion. -/
theorem c6_counterexample :
    (shutdown ⟨false, true⟩ bridgedState).threw = true
    ∧ (∀ a ∈ (shutdown ⟨false, true⟩ bridgedState).trace, isLog a = false)
    ∧ (∀ a ∈ (shutdown ⟨false, true⟩ bridgedState).trace, isConsumerDisconnect a = false)
    ∧ (shutdown ⟨false, true⟩ bridgedState).state.consumerOpen = true := by decide

/-- C6 amended: `shutdown` is safe when `start` was never called (it does
nothing and completes), and applying it twice with succeeding disconnects is
idempotent on the state; but a failing producer disconnect is not caught: the
error propagates out of `shutdown` and the consumer disconnect is skipped. -/
theorem c6_amended_shutdown_behavior :
    (∀ env : ShutdownEnv, (shutdown env initialState).threw = false
      ∧ (shutdown env initialState).trace = []
      ∧ (shutdown env initialState).state = initialState)
    ∧ (∀ s : BusState,
        (shutdown ⟨true, true⟩ (shutdown ⟨true, true⟩ s).state).state
          = (shutdown ⟨true, true⟩ s).state
        ∧ (shutdown ⟨true, true⟩ (shutdown ⟨true, true⟩ s).state).threw = false)
    ∧ (∀ (s : BusState) (c : Bool), s.kafkaProducer = true →
        (shutdown ⟨false, c⟩ s).threw = true
        ∧ ∀ a ∈ (shutdown ⟨false, c⟩ s).trace, isConsumerDisconnect a = false) := by
  refine ⟨?_, ?_, ?_⟩
  · rintro ⟨po, co⟩
    cases po <;> cases co <;> exact ⟨rfl, rfl, rfl⟩
  · rintro ⟨kp, kc, st, pn, cn⟩
    cases kp <;> cases kc <;> cases st <;> cases pn <;> cases cn <;> decide
  · rintro ⟨kp, kc, st, pn, cn⟩ c h
    cases kp with
    | false => exact Bool.noConfusion h
    | true => cases kc <;> cases c <;> cases st <;> cases pn <;> cases cn <;> decide

/-- Witness instantiating the universally quantified parts of the amended C6
at concrete inputs. -/
theorem c6_amended_shutdown_behavior_witness :
    ((shutdown ⟨true, true⟩ initialState).threw = false
      ∧ (shutdown ⟨true, true⟩ initialState).trace = []
      ∧ (shutdown ⟨true, true⟩ initialState).state = initialState)
    ∧ ((shutdown ⟨true, true⟩ (shutdown ⟨true, true⟩ bridgedState).state).state
        = (shutdown ⟨true, true⟩ bridgedState).state)
    ∧ ((shutdown ⟨false, true⟩ bridgedState).threw = true) :=
  ⟨c6_amended_shutdown_behavior.1 ⟨true, true⟩,
   (c6_amended_shutdown_behavior.2.1 bridgedState).1,
   (c6_amended_shutdown_behavior.2.2 bridgedState true rfl).1⟩
